import Mathlib

/-!
Verification of the virtualized-table TUI core of `cargo-crev`
(`src/cargo-crev/src/tui/verify_screen.rs`), shallowly embedded in Lean.

Machine integers (`u64`, `u16`) are modelled as `Nat`; subtractions that
can underflow in `u16` are modelled with a checked subtraction returning
`Option`.  The companion module `table_view.rs` (the `TableView` scroll
buffer) and the `dep.rs` data types are part of the repository but not
available here; their operations are modelled from the specification, as
marked on each definition.
-/

namespace CrevTui

/-! ## Magnitude formatter (`u64_to_str`) -/

/-- The `SIZE_NAMES` table from the source: the base-1024 unit suffix sequence. -/
def SIZE_NAMES : List String := ["", "K", "M", "G", "T", "P", "E", "Z", "Y"]

/-- The `while v >= 1200 && i < SIZE_NAMES.len() - 1 { v >>= 10; i += 1 }`
loop of `u64_to_str`, returning the reduced value and the suffix index.
`SIZE_NAMES.length - 1 = 8`. -/
def reduceLoop (v : Nat) (i : Nat) : Nat × Nat :=
  if h : 1200 ≤ v ∧ i < 8 then
    reduceLoop (v >>> 10) (i + 1)
  else
    (v, i)
termination_by 8 - i
decreasing_by omega

/-- The source's `u64_to_str`: `""` for 0, otherwise the decimal digits of
the reduced value followed by the chosen suffix. -/
def u64_to_str (v : Nat) : String :=
  if v = 0 then ""
  else
    let p := reduceLoop v 0
    Nat.repr p.1 ++ SIZE_NAMES.getD p.2 ""

/-- The reduction rule as the specification words it: while the value is at
least 1200 and fewer than 8 reductions have occurred, divide by 1024
(integer, truncating) and advance the suffix index. -/
def specReduce (v : Nat) (reductions : Nat) : Nat × Nat :=
  if h : 1200 ≤ v ∧ reductions < 8 then
    specReduce (v / 1024) (reductions + 1)
  else
    (v, reductions)
termination_by 8 - reductions
decreasing_by omega

/-- The magnitude formatter as the specification words it: empty string for
zero, otherwise the decimal digits of the reduced value concatenated with
the suffix reached in `["", "K", "M", "G", "T", "P", "E", "Z", "Y"]`. -/
def u64_to_str_spec (v : Nat) : String :=
  if v = 0 then ""
  else
    let p := specReduce v 0
    Nat.repr p.1 ++ SIZE_NAMES.getD p.2 ""

lemma shiftRight_ten (v : Nat) : v >>> 10 = v / 1024 := by
  rw [Nat.shiftRight_eq_div_pow]

lemma reduceLoop_eq_specReduce (v i : Nat) : reduceLoop v i = specReduce v i := by
  by_cases h : 1200 ≤ v ∧ i < 8
  · rw [reduceLoop, specReduce, dif_pos h, dif_pos h, shiftRight_ten]
    exact reduceLoop_eq_specReduce (v / 1024) (i + 1)
  · rw [reduceLoop, specReduce, dif_neg h, dif_neg h]
termination_by 8 - i
decreasing_by omega

lemma reduceLoop_of_lt (v i : Nat) (h : v < 1200) : reduceLoop v i = (v, i) := by
  rw [reduceLoop, dif_neg]
  omega

lemma reduceLoop_step (v i : Nat) (h1 : 1200 ≤ v) (h2 : i < 8) :
    reduceLoop v i = reduceLoop (v >>> 10) (i + 1) := by
  rw [reduceLoop, dif_pos ⟨h1, h2⟩]

/-- C1: `u64_to_str` returns the empty string for 0 and otherwise performs
exactly the reduction the spec describes (divide by 1024 while the value is
at least 1200 and fewer than 8 reductions happened, advancing through the
suffix sequence), returning the decimal digits of the reduced value plus the
chosen suffix; in particular `u64_to_str 999 = "999"` and
`u64_to_str 1200 = "1K"`. -/
theorem u64_to_str_matches_spec :
    (∀ v, u64_to_str v = u64_to_str_spec v) ∧
    u64_to_str 999 = "999" ∧ u64_to_str 1200 = "1K" := by
  refine ⟨fun v => ?_, ?_, ?_⟩
  · unfold u64_to_str u64_to_str_spec
    rw [reduceLoop_eq_specReduce]
  · have h : reduceLoop 999 0 = (999, 0) := reduceLoop_of_lt _ _ (by norm_num)
    simp only [u64_to_str, h, SIZE_NAMES]
    decide
  · have h1 : (1200 : Nat) >>> 10 = 1 := by decide
    have h : reduceLoop 1200 0 = (1, 1) := by
      rw [reduceLoop_step _ _ (by norm_num) (by norm_num), h1,
        reduceLoop_of_lt _ _ (by norm_num)]
    simp only [u64_to_str, h, SIZE_NAMES]
    decide

lemma reduceLoop_bound (k : Nat) :
    ∀ v i, v < 1200 * 1024 ^ k → i + k ≤ 8 →
      (reduceLoop v i).1 < 1200 ∧ (reduceLoop v i).2 ≤ i + k := by
  induction k with
  | zero =>
    intro v i hv _
    rw [reduceLoop_of_lt v i (by simpa using hv)]
    exact ⟨by simpa using hv, by omega⟩
  | succ k ih =>
    intro v i hv hi
    by_cases h : 1200 ≤ v
    · rw [reduceLoop_step v i h (by omega), shiftRight_ten]
      have hv' : v / 1024 < 1200 * 1024 ^ k := by
        rw [Nat.div_lt_iff_lt_mul (by norm_num)]
        calc v < 1200 * 1024 ^ (k + 1) := hv
          _ = 1200 * 1024 ^ k * 1024 := by ring
      have hres := ih (v / 1024) (i + 1) hv' (by omega)
      exact ⟨hres.1, by omega⟩
    · rw [reduceLoop_of_lt v i (by omega)]
      exact ⟨by omega, by omega⟩

/-- C10: for every `u64` input, the reduction loop exits with the value below
1200 after at most 6 divisions, so the 8-reduction cap never binds and the
suffixes `"Z"` and `"Y"` are unreachable. -/
theorem reduceLoop_u64_bounds (v : Nat) (h : v < 2 ^ 64) :
    (reduceLoop v 0).2 ≤ 6 ∧ (reduceLoop v 0).1 < 1200 ∧
    SIZE_NAMES.getD (reduceLoop v 0).2 "" ≠ "Z" ∧
    SIZE_NAMES.getD (reduceLoop v 0).2 "" ≠ "Y" := by
  have hb := reduceLoop_bound 6 v 0
    (lt_of_lt_of_le h (by norm_num)) (by omega)
  have h6 : (reduceLoop v 0).2 ≤ 6 := by omega
  refine ⟨h6, hb.1, ?_, ?_⟩ <;>
  · set i := (reduceLoop v 0).2 with hi
    interval_cases i <;> decide

/-- Witness for C10 at the largest `u64` value. -/
theorem reduceLoop_u64_bounds_witness :
    (18446744073709551615 : Nat) < 2 ^ 64 ∧
    ((reduceLoop 18446744073709551615 0).2 ≤ 6 ∧
     (reduceLoop 18446744073709551615 0).1 < 1200 ∧
     SIZE_NAMES.getD (reduceLoop 18446744073709551615 0).2 "" ≠ "Z" ∧
     SIZE_NAMES.getD (reduceLoop 18446744073709551615 0).2 "" ≠ "Y") :=
  ⟨by norm_num, reduceLoop_u64_bounds 18446744073709551615 (by norm_num)⟩

/-! ## Virtualized table buffer (scroll state)

The `TableView` scroll buffer lives in the repository's `table_view.rs`,
which is not available here; its state and operations are modelled from the
specification (§4.3). -/

/-- Modelled from the spec: the scroll state of the virtualized table buffer,
`{ offset, viewport_height, total_rows }`, all unsigned. -/
structure ScrollState where
  total_rows : Nat
  viewport_height : Nat
  offset : Nat
deriving DecidableEq

/-- Modelled from the spec: `max(0, total_rows − viewport_height)`, the
largest legal scroll offset (truncated `Nat` subtraction is exactly
`max(0, ·)`). -/
def ScrollState.maxOffset (s : ScrollState) : Nat :=
  s.total_rows - s.viewport_height

/-- Modelled from the spec: "at bottom" iff
`offset == max(0, total_rows − viewport_height)` (the source's
`do_scroll_show_bottom`). -/
def ScrollState.is_at_bottom (s : ScrollState) : Bool :=
  s.offset == s.maxOffset

/-- Modelled from the spec: `append` extends the stored sequence by `n` rows
and does not itself move `offset`. -/
def ScrollState.append (s : ScrollState) (n : Nat) : ScrollState :=
  { s with total_rows := s.total_rows + n }

/-- Modelled from the spec: `scroll_to_bottom` sets
`offset = max(0, total_rows − viewport_height)`. -/
def ScrollState.scroll_to_bottom (s : ScrollState) : ScrollState :=
  { s with offset := s.maxOffset }

/-- Modelled from the spec: `scroll_by_lines(delta)` sets
`offset = clamp(offset + delta, 0, max(0, total_rows − viewport_height))`,
clamping out-of-range deltas silently (the source's `try_scroll_lines`). -/
def ScrollState.scroll_by_lines (s : ScrollState) (delta : Int) : ScrollState :=
  { s with offset := (max 0 (min ((s.offset : Int) + delta) (s.maxOffset : Int))).toNat }

/-- Modelled from the spec: `scroll_by_pages(delta)` is
`scroll_by_lines(delta * viewport_height)` (the source's
`try_scroll_pages`). -/
def ScrollState.scroll_by_pages (s : ScrollState) (delta : Int) : ScrollState :=
  s.scroll_by_lines (delta * (s.viewport_height : Int))

/-- Modelled from the spec: `set_viewport_height(h)` updates the viewport
height and re-clamps `offset` to the invariant. -/
def ScrollState.set_viewport_height (s : ScrollState) (h : Nat) : ScrollState :=
  let s' := { s with viewport_height := h }
  { s' with offset := min s'.offset s'.maxOffset }

/-- The scroll-state invariant: `0 ≤ offset ≤ max(0, total_rows −
viewport_height)` (the lower bound is implicit in `Nat`). -/
def ScrollState.inv (s : ScrollState) : Prop :=
  s.offset ≤ s.maxOffset

instance (s : ScrollState) : Decidable s.inv := by
  unfold ScrollState.inv; infer_instance

/-- One buffer operation of the sequences the spec quantifies over. -/
inductive ScrollOp
  | append (n : Nat)
  | lines (delta : Int)
  | pages (delta : Int)
  | setViewportHeight (h : Nat)

/-- Run one buffer operation. -/
def ScrollState.runOp (s : ScrollState) : ScrollOp → ScrollState
  | .append n => s.append n
  | .lines d => s.scroll_by_lines d
  | .pages d => s.scroll_by_pages d
  | .setViewportHeight h => s.set_viewport_height h

/-- Run a sequence of buffer operations left to right. -/
def ScrollState.runOps (s : ScrollState) (ops : List ScrollOp) : ScrollState :=
  ops.foldl ScrollState.runOp s

lemma ScrollState.inv_runOp (s : ScrollState) (op : ScrollOp) (h : s.inv) :
    (s.runOp op).inv := by
  cases op with
  | append n =>
    simp only [runOp, append, inv, maxOffset] at *
    omega
  | lines d =>
    simp only [runOp, scroll_by_lines, inv, maxOffset] at *
    rw [Int.toNat_le]
    omega
  | pages d =>
    simp only [runOp, scroll_by_pages, scroll_by_lines, inv, maxOffset] at *
    rw [Int.toNat_le]
    omega
  | setViewportHeight h' =>
    simp only [runOp, set_viewport_height, inv, maxOffset] at *
    omega

/-- C3: for any sequence of append, scroll-by-lines, scroll-by-pages and
viewport-height updates, starting from a state satisfying the scroll
invariant, the offset stays within `[0, max(0, total_rows −
viewport_height)]` after every call; out-of-range deltas clamp silently. -/
theorem scroll_invariant_preserved (s : ScrollState) (ops : List ScrollOp)
    (h : s.inv) : (s.runOps ops).inv := by
  induction ops generalizing s with
  | nil => exact h
  | cons op rest ih =>
    exact ih (s.runOp op) (ScrollState.inv_runOp s op h)

/-- Witness for C3: a concrete run with an out-of-range negative line
scroll, a page scroll, appends and a viewport shrink. -/
theorem scroll_invariant_preserved_witness :
    (ScrollState.mk 0 5 0).inv ∧
    ((ScrollState.mk 0 5 0).runOps
      [.append 12, .lines 100, .lines (-3), .pages (-2), .append 4,
       .setViewportHeight 2, .pages 7]).inv :=
  ⟨by decide, scroll_invariant_preserved _ _ (by decide)⟩

/-- The controller's refresh protocol from `update_table_view`: capture
`is_at_bottom` before appending the new rows, append them, and scroll to the
bottom afterwards iff the flag was set. -/
def refreshProtocol (s : ScrollState) (n : Nat) : ScrollState :=
  let iab := s.is_at_bottom
  let s' := s.append n
  if iab then s'.scroll_to_bottom else s'

lemma is_at_bottom_scroll_to_bottom (s : ScrollState) :
    s.scroll_to_bottom.is_at_bottom = true := by
  simp [ScrollState.scroll_to_bottom, ScrollState.is_at_bottom,
    ScrollState.maxOffset]

/-- C2: if the view is at the bottom before the refresh protocol ingests a
positive number of new rows it is at the bottom afterwards; if the user had
scrolled away, the refresh leaves the offset unchanged. -/
theorem refresh_sticky_tail (s : ScrollState) (n : Nat) (_hn : 0 < n) :
    (s.is_at_bottom = true → (refreshProtocol s n).is_at_bottom = true) ∧
    (s.is_at_bottom = false → (refreshProtocol s n).offset = s.offset) := by
  constructor
  · intro h
    simp only [refreshProtocol, h, if_true]
    exact is_at_bottom_scroll_to_bottom _
  · intro h
    simp [refreshProtocol, h, ScrollState.append]

/-- Witness for C2: both branches at concrete states (at bottom: 7 rows,
viewport 3, offset 4; scrolled away: offset 1). -/
theorem refresh_sticky_tail_witness :
    (0 < 2 ∧
      ((ScrollState.mk 7 3 4).is_at_bottom = true →
        (refreshProtocol (ScrollState.mk 7 3 4) 2).is_at_bottom = true) ∧
      ((ScrollState.mk 7 3 4).is_at_bottom = false →
        (refreshProtocol (ScrollState.mk 7 3 4) 2).offset =
          (ScrollState.mk 7 3 4).offset)) ∧
    ((ScrollState.mk 7 3 1).is_at_bottom = false ∧
      (refreshProtocol (ScrollState.mk 7 3 1) 2).offset =
        (ScrollState.mk 7 3 1).offset) :=
  ⟨⟨by decide, refresh_sticky_tail (ScrollState.mk 7 3 4) 2 (by decide)⟩,
   ⟨by decide,
    (refresh_sticky_tail (ScrollState.mk 7 3 1) 2 (by decide)).2 (by decide)⟩⟩

/-! ## Layout manager (`VerifyScreen::resize`)

Surface dimensions are `u16` in the source; they are modelled as `Nat`, with
the subtractions `h - 4`, `h - 3`, `h - 2` modelled by a checked subtraction
that fails exactly when the `u16` arithmetic would underflow. -/

/-- The `termimad` `Area` rectangle `{ left, top, width, height }`. -/
structure Area where
  left : Nat
  top : Nat
  width : Nat
  height : Nat
deriving DecidableEq

/-- The screen regions and cached dimensions of `VerifyScreen` (the fields
`resize` reads or writes: the five region areas, the table view's area, and
`last_dimensions`). -/
structure Screen where
  title_area : Area
  status_area : Area
  input_area : Area
  hint_area : Area
  table_area : Area
  last_dimensions : Nat × Nat
deriving DecidableEq

/-- The regions as built in `VerifyScreen::new` (before the initial
`resize`): `Area::new(0,0,10,1)`, `(0,2,10,1)`, `(0,3,10,1)`, `(0,3,10,1)`,
table `Area::new(0,1,10,10)`, `last_dimensions = (0,0)`. -/
def initScreen : Screen :=
  { title_area := ⟨0, 0, 10, 1⟩
    status_area := ⟨0, 2, 10, 1⟩
    input_area := ⟨0, 3, 10, 1⟩
    hint_area := ⟨0, 3, 10, 1⟩
    table_area := ⟨0, 1, 10, 10⟩
    last_dimensions := (0, 0) }

/-- Unsigned 16-bit subtraction, failing on underflow (a Rust `u16`
subtraction panics there). -/
def checkedSub (a b : Nat) : Option Nat :=
  if a < b then none else some (a - b)

/-- The source's `VerifyScreen::resize` given the surface size `(w, h)`: short-circuit
when the dimensions are unchanged, otherwise clear the surface and recompute
every region. The `Bool` records whether the surface clear was issued;
`none` models an underflowing `u16` subtraction. -/
def resize (w h : Nat) (s : Screen) : Option (Bool × Screen) :=
  if (w, h) = s.last_dimensions then
    some (false, s)
  else do
    let tableH ← checkedSub h 4
    let statusTop ← checkedSub h 3
    let inputTop ← checkedSub h 2
    some (true,
      { title_area := { s.title_area with width := w }
        table_area := { s.table_area with width := w, height := tableH }
        status_area := { s.status_area with top := statusTop, width := w }
        input_area := { s.input_area with top := inputTop, width := w / 2 }
        hint_area :=
          { s.hint_area with top := inputTop, left := w / 2, width := w - w / 2 }
        last_dimensions := (w, h) })

/-- C6: when the surface dimensions equal the cached `last_dimensions`,
`resize` short-circuits: no clear is issued and the whole screen state —
every region, the table view's dimensions and the cached dimensions — is
returned unchanged. -/
theorem resize_short_circuit (w h : Nat) (s : Screen)
    (heq : (w, h) = s.last_dimensions) :
    resize w h s = some (false, s) := by
  simp [resize, heq]

/-- Witness for C6 at the freshly constructed screen, whose cached
dimensions are `(0, 0)`. -/
theorem resize_short_circuit_witness :
    ((0, 0) : Nat × Nat) = initScreen.last_dimensions ∧
    resize 0 0 initScreen = some (false, initScreen) :=
  ⟨by decide, resize_short_circuit 0 0 initScreen (by decide)⟩

/-- C4: for changed surface dimensions with height at least the 5-row chrome
budget, `resize` succeeds and produces the specified layout: title on row 0,
full width, height 1; table starting on row 1 with `height + 4 = h` and full
width; status on row `h − 3`, full width, height 1; input on row `h − 2`
with width `w / 2`; hint on row `h − 2` starting at the input's width, with
`input.width + hint.width = w`. -/
theorem resize_layout (w h : Nat) (s : Screen) (h5 : 5 ≤ h)
    (hne : (w, h) ≠ s.last_dimensions)
    (ht : s.title_area.left = 0 ∧ s.title_area.top = 0 ∧ s.title_area.height = 1)
    (htb : s.table_area.left = 0 ∧ s.table_area.top = 1)
    (hst : s.status_area.left = 0 ∧ s.status_area.height = 1)
    (hin : s.input_area.left = 0 ∧ s.input_area.height = 1)
    (hhi : s.hint_area.height = 1) :
    ∃ s', resize w h s = some (true, s') ∧
      s'.title_area = ⟨0, 0, w, 1⟩ ∧
      s'.table_area.left = 0 ∧ s'.table_area.top = 1 ∧
      s'.table_area.width = w ∧ s'.table_area.height + 4 = h ∧
      s'.status_area = ⟨0, h - 3, w, 1⟩ ∧
      s'.input_area.left = 0 ∧ s'.input_area.top = h - 2 ∧
      s'.input_area.width = w / 2 ∧ s'.input_area.height = 1 ∧
      s'.hint_area.top = h - 2 ∧ s'.hint_area.left = s'.input_area.width ∧
      s'.hint_area.height = 1 ∧
      s'.input_area.width + s'.hint_area.width = w := by
  obtain ⟨⟨tal, tat, taw, tah⟩, ⟨sal, sat, saw, sah⟩, ⟨ial, iat, iaw, iah⟩,
    ⟨hal, hat, haw, hah⟩, ⟨bal, bat, baw, bah⟩, ld⟩ := s
  simp only [Screen.last_dimensions] at hne
  obtain ⟨ht1, ht2, ht3⟩ := ht
  obtain ⟨htb1, htb2⟩ := htb
  obtain ⟨hst1, hst2⟩ := hst
  obtain ⟨hin1, hin2⟩ := hin
  simp only at ht1 ht2 ht3 htb1 htb2 hst1 hst2 hin1 hin2 hhi
  subst ht1 ht2 ht3 htb1 htb2 hst1 hst2 hin1 hin2 hhi
  refine ⟨⟨⟨0, 0, w, 1⟩, ⟨0, h - 3, w, 1⟩, ⟨0, h - 2, w / 2, 1⟩,
    ⟨w / 2, h - 2, w - w / 2, 1⟩, ⟨0, 1, w, h - 4⟩, (w, h)⟩, ?_, ?_⟩
  · simp only [resize, if_neg hne, checkedSub, if_neg (by omega : ¬h < 4),
      if_neg (by omega : ¬h < 3), if_neg (by omega : ¬h < 2)]
    rfl
  · exact ⟨rfl, rfl, rfl, rfl, by show h - 4 + 4 = h; omega, rfl, rfl, rfl,
      rfl, rfl, rfl, rfl, rfl, by show w / 2 + (w - w / 2) = w; omega⟩

/-- Witness for C4: the initial screen resized to an 80×24 surface. -/
theorem resize_layout_witness :
    (5 ≤ 24 ∧ ((80, 24) : Nat × Nat) ≠ initScreen.last_dimensions) ∧
    (∃ s', resize 80 24 initScreen = some (true, s') ∧
      s'.title_area = ⟨0, 0, 80, 1⟩ ∧
      s'.table_area.left = 0 ∧ s'.table_area.top = 1 ∧
      s'.table_area.width = 80 ∧ s'.table_area.height + 4 = 24 ∧
      s'.status_area = ⟨0, 24 - 3, 80, 1⟩ ∧
      s'.input_area.left = 0 ∧ s'.input_area.top = 24 - 2 ∧
      s'.input_area.width = 80 / 2 ∧ s'.input_area.height = 1 ∧
      s'.hint_area.top = 24 - 2 ∧ s'.hint_area.left = s'.input_area.width ∧
      s'.hint_area.height = 1 ∧
      s'.input_area.width + s'.hint_area.width = 80) :=
  ⟨⟨by decide, by decide⟩,
   resize_layout 80 24 initScreen (by decide) (by decide) (by decide)
     (by decide) (by decide) (by decide) (by decide)⟩

/-- C9 counterexample: the claim "for every height `h < 4` the region
computations underflow" fails at a height below 4 whose dimensions match the
cached ones — the short-circuit returns before any arithmetic, so `resize`
succeeds at height 0 on the fresh screen. -/
theorem resize_underflow_counterexample :
    (0 : Nat) < 4 ∧ resize 0 0 initScreen = some (false, initScreen) := by
  constructor
  · decide
  · simp [resize, initScreen]

/-- C9 (amended): `resize` is total for every reported height `h ≥ 4`, and
for `h < 4` the `u16` region computations underflow exactly when the read
dimensions differ from the cached ones (when they coincide the
short-circuit returns before any arithmetic). -/
theorem resize_underflow (w h : Nat) (s : Screen) :
    (4 ≤ h → (resize w h s).isSome = true) ∧
    ((w, h) ≠ s.last_dimensions → h < 4 → resize w h s = none) := by
  constructor
  · intro h4
    by_cases heq : (w, h) = s.last_dimensions
    · simp [resize, heq]
    · simp [resize, heq, checkedSub, if_neg (by omega : ¬h < 4),
        if_neg (by omega : ¬h < 3), if_neg (by omega : ¬h < 2)]
  · intro hne h4
    simp [resize, hne, checkedSub, if_pos h4]

/-- Witness for C9 (amended): height 0 with changed dimensions underflows;
height 24 always succeeds. -/
theorem resize_underflow_witness :
    (((5, 0) : Nat × Nat) ≠ initScreen.last_dimensions ∧ 0 < 4 ∧
      resize 5 0 initScreen = none) ∧
    (4 ≤ 24 ∧ (resize 80 24 initScreen).isSome = true) :=
  ⟨⟨by decide, by decide,
    (resize_underflow 5 0 initScreen).2 (by decide) (by decide)⟩,
   ⟨by decide, (resize_underflow 80 24 initScreen).1 (by decide)⟩⟩

/-! ## Dependency rows and the progress state machine

The `Dep` / `ComputedDep` row types and `TableComputationStatus` live in the
repository's `dep.rs`, which is not available here; their shape is modelled
from the specification and from how the source's cell closures use them. -/

/-- The `crev_lib::VerificationStatus` variants as matched by the trust column. -/
inductive VerificationStatus
  | Verified
  | Insufficient
  | Negative
deriving DecidableEq

/-- A per-version / overall pair of counts, as read by the reviews and
downloads columns (`.version` / `.total`). -/
structure VersionCount where
  version : Nat
  total : Nat
deriving DecidableEq

/-- A trusted / overall pair of counts, as read by the owners and issues
columns (`.trusted` / `.total`). -/
structure TrustCount where
  trusted : Nat
  total : Nat
deriving DecidableEq

/-- Modelled from the spec: the computed data of a row record, with the
fields the source's cell closures read; fields that may not be available are
options. -/
structure ComputedDep where
  trust : VerificationStatus
  latest_trusted_version : Option String
  reviews : VersionCount
  downloads : Option VersionCount
  owners : Option TrustCount
  issues : TrustCount
  loc : Option Nat
deriving DecidableEq

/-- Modelled from the spec: a row record; `computed` is `none` while the
row's data has not been computed yet (the source's `dep.computed()`). -/
structure Dep where
  name : String
  version : String
  computed : Option ComputedDep
deriving DecidableEq

/-- A progress counter `{ done, total }`. -/
structure Progress where
  done : Nat
  total : Nat
deriving DecidableEq

/-- The `TableComputationStatus` variants: the phases of the background computation, as
matched in `update_status`. -/
inductive TableComputationStatus
  | New
  | ComputingGeiger (progress : Progress)
  | ComputingTrust (progress : Progress)
  | Done
deriving DecidableEq

/-- Modelled from the spec: `is_before_deps` holds only before any
computation phase has started, i.e. exactly in the `New` state ("before any
phase has started" is the only placeholder-eligible state). -/
def TableComputationStatus.is_before_deps : TableComputationStatus → Bool
  | .New => true
  | _ => false

/-- The `DepTable` snapshot the controller reads each tick: the row records
and the computation status. -/
structure DepTable where
  deps : List Dep
  computation_status : TableComputationStatus

/-- What the table region shows: the "preparing" placeholder or live rows. -/
inductive TableContent
  | placeholder
  | liveRows
deriving DecidableEq

/-- The source's `VerifyScreen::update_table_view`: show the placeholder while
`is_before_deps`, otherwise run the sticky-tail refresh protocol on the
scroll state, ingesting the rows not yet added, and display live rows. -/
def update_table_view (table : DepTable) (view : ScrollState) :
    TableContent × ScrollState :=
  if table.computation_status.is_before_deps then
    (.placeholder, view)
  else
    (.liveRows, refreshProtocol view (table.deps.length - view.total_rows))

/-- C5: the table region shows the "preparing" placeholder — drawing no rows
even when row records exist — exactly while no computation phase has started
(the `New` state); in every other state it shows live rows. -/
theorem table_placeholder_iff_new (table : DepTable) (view : ScrollState) :
    ((update_table_view table view).1 = TableContent.placeholder ↔
      table.computation_status = TableComputationStatus.New) ∧
    ((update_table_view table view).1 = TableContent.liveRows ↔
      table.computation_status ≠ TableComputationStatus.New) := by
  cases h : table.computation_status <;>
    simp [update_table_view, TableComputationStatus.is_before_deps, h]

/-- The source's `VerifyScreen::update_hint`: the hint text drawn in the hint region. -/
def update_hint (table : DepTable) : String :=
  if table.computation_status.is_before_deps then
    "Hit *ctrl-q* to quit"
  else
    "Hit *ctrl-q* to quit, *PageUp* or *PageDown* to scroll"

/-- C7: before any computation phase has started (no rows have started
arriving) the hint is the quit-only text; once rows start arriving it also
lists the PageUp/PageDown scroll keys. -/
theorem hint_text (table : DepTable) :
    (table.computation_status = TableComputationStatus.New →
      update_hint table = "Hit *ctrl-q* to quit") ∧
    (table.computation_status ≠ TableComputationStatus.New →
      update_hint table =
        "Hit *ctrl-q* to quit, *PageUp* or *PageDown* to scroll") := by
  cases h : table.computation_status <;>
    simp [update_hint, TableComputationStatus.is_before_deps, h]

/-- Witness for C7: the quit-only hint in the `New` state and the scroll
hint in the `Done` state. -/
theorem hint_text_witness :
    (update_hint ⟨[], TableComputationStatus.New⟩ = "Hit *ctrl-q* to quit") ∧
    (update_hint ⟨[], TableComputationStatus.Done⟩ =
      "Hit *ctrl-q* to quit, *PageUp* or *PageDown* to scroll") :=
  ⟨(hint_text ⟨[], TableComputationStatus.New⟩).1 rfl,
   (hint_text ⟨[], TableComputationStatus.Done⟩).2 (by simp)⟩

/-! ## Column model (`VerifyScreen::new`)

The thirteen columns and their cell closures are transcribed from the
source. The style constants of `DepTableSkin` are an opaque closed palette;
`latest_trusted_version_string` lives in `dep.rs` (not available here) and
is taken as an arbitrary total parameter `ltvs`. -/

/-- The closed style palette of `DepTableSkin`. -/
inductive CellStyle
  | std
  | bad
  | medium
  | good
  | none
deriving DecidableEq

/-- A styled cell `{ text, style }`. -/
structure Cell where
  text : String
  style : CellStyle
deriving DecidableEq

/-- The source's `Cell::new`. -/
def Cell.new (text : String) (style : CellStyle) : Cell :=
  ⟨text, style⟩

/-- Column alignment. -/
inductive Alignment
  | Left
  | Center
  | Right
deriving DecidableEq

/-- A column: name, width bounds, optional alignment and the cell
closure. -/
structure Column where
  name : String
  min_width : Nat
  max_width : Nat
  align : Option Alignment
  cell_fn : Dep → Cell

/-- The source's `Column::new` (alignment unset until `with_align`). -/
def Column.new (name : String) (min_width max_width : Nat)
    (cell_fn : Dep → Cell) : Column :=
  ⟨name, min_width, max_width, Option.none, cell_fn⟩

/-- The source's `Column::with_align`. -/
def Column.with_align (c : Column) (a : Alignment) : Column :=
  { c with align := some a }

/-- The column list built in `VerifyScreen::new`, parameterized by the
external `latest_trusted_version_string` (`ltvs`). -/
def columns (ltvs : String → Option String → String) : List Column :=
  [ (Column.new "crate" 10 80
      (fun dep => Cell.new dep.name CellStyle.std)).with_align Alignment.Left,
    (Column.new "version" 9 13
      (fun dep => Cell.new dep.version CellStyle.std)).with_align Alignment.Right,
    Column.new "trust" 6 6
      (fun dep =>
        match dep.computed with
        | some cdep =>
          match cdep.trust with
          | VerificationStatus.Verified => Cell.new "high" CellStyle.good
          | VerificationStatus.Insufficient => Cell.new "none" CellStyle.none
          | VerificationStatus.Negative => Cell.new "NO" CellStyle.bad
        | Option.none => Cell.new "?" CellStyle.medium),
    (Column.new "last trusted" 12 16
      (fun dep => Cell.new
        (dep.computed.elim "?"
          (fun cdep => ltvs dep.version cdep.latest_trusted_version))
        CellStyle.std)).with_align Alignment.Right,
    (Column.new "reviews" 3 3
      (fun dep => Cell.new
        (dep.computed.elim "?" (fun cdep => u64_to_str cdep.reviews.version))
        CellStyle.std)).with_align Alignment.Center,
    (Column.new "reviews" 3 3
      (fun dep => Cell.new
        (dep.computed.elim "?" (fun cdep => u64_to_str cdep.reviews.total))
        CellStyle.std)).with_align Alignment.Center,
    (Column.new "downloads" 6 6
      (fun dep =>
        match dep.computed with
        | some cdep =>
          match cdep.downloads with
          | some downloads =>
            Cell.new (u64_to_str downloads.version)
              (if downloads.version < 1000 then CellStyle.medium else CellStyle.std)
          | Option.none => Cell.new "" CellStyle.std
        | Option.none => Cell.new "" CellStyle.std)).with_align Alignment.Right,
    (Column.new "downloads" 6 6
      (fun dep =>
        match dep.computed with
        | some cdep =>
          match cdep.downloads with
          | some downloads =>
            Cell.new (u64_to_str downloads.total)
              (if downloads.total < 1000 then CellStyle.medium else CellStyle.std)
          | Option.none => Cell.new "" CellStyle.std
        | Option.none => Cell.new "" CellStyle.std)).with_align Alignment.Right,
    (Column.new "owners" 2 2
      (fun dep =>
        match dep.computed with
        | some cdep =>
          match cdep.owners with
          | some owners =>
            if 0 < owners.trusted then
              Cell.new (toString owners.trusted) CellStyle.good
            else
              Cell.new "" CellStyle.std
          | Option.none => Cell.new "" CellStyle.std
        | Option.none => Cell.new "" CellStyle.std)).with_align Alignment.Right,
    (Column.new "owners" 3 3
      (fun dep => Cell.new
        (match dep.computed with
          | some cdep =>
            match cdep.owners with
            | some owners =>
              if 0 < owners.total then toString owners.total else ""
            | Option.none => ""
          | Option.none => "")
        CellStyle.std)).with_align Alignment.Right,
    (Column.new "issues" 2 2
      (fun dep =>
        match dep.computed with
        | some cdep =>
          if 0 < cdep.issues.trusted then
            Cell.new (toString cdep.issues.trusted) CellStyle.bad
          else
            Cell.new "" CellStyle.std
        | Option.none => Cell.new "" CellStyle.std)).with_align Alignment.Right,
    (Column.new "issues" 3 3
      (fun dep =>
        match dep.computed with
        | some cdep =>
          if 0 < cdep.issues.total then
            Cell.new (toString cdep.issues.total) CellStyle.medium
          else
            Cell.new "" CellStyle.std
        | Option.none => Cell.new "" CellStyle.std)).with_align Alignment.Right,
    (Column.new "l.o.c." 6 6
      (fun dep => Cell.new
        (match dep.computed with
          | some cdep =>
            match cdep.loc with
            | some loc => u64_to_str loc
            | Option.none => ""
          | Option.none => "")
        CellStyle.std)).with_align Alignment.Right ]

/-- C8: every column's cell closure is total — it is a function in the
embedding — and on a row whose computed data is not yet available it
returns a placeholder cell: the text is `"?"` or `""` (or, for the two
columns that never need computed data, the crate name or version). -/
theorem cell_fns_placeholder (ltvs : String → Option String → String)
    (dep : Dep) (h : dep.computed = Option.none) :
    ((columns ltvs).map (fun c => (c.cell_fn dep).text)).all
      (fun t => t == "?" || t == "" || t == dep.name || t == dep.version)
      = true := by
  simp [columns, Column.new, Column.with_align, Cell.new, h]

/-- Witness for C8: a concrete not-yet-computed row and a concrete
`latest_trusted_version_string`. -/
theorem cell_fns_placeholder_witness :
    (Dep.mk "serde" "1.0.0" Option.none).computed = Option.none ∧
    ((columns (fun _ _ => "")).map
        (fun c => (c.cell_fn (Dep.mk "serde" "1.0.0" Option.none)).text)).all
      (fun t => t == "?" || t == "" ||
        t == (Dep.mk "serde" "1.0.0" Option.none).name ||
        t == (Dep.mk "serde" "1.0.0" Option.none).version) = true :=
  ⟨rfl, cell_fns_placeholder (fun _ _ => "") (Dep.mk "serde" "1.0.0" Option.none) rfl⟩

end CrevTui
